import Mathlib

/-!
Shallow embedding of mmgrexport.py (MoneyManagerQuery), the Money Manager
export tool.  Pure string transforms are Lean functions on String; the
stateful resolver (cached start and end dates, cached query statement,
accumulated total) is explicit state passing over a QueryState record; the
sqlite query is modelled by its semantics over an in-memory list of joined
rows (filter on the date-string range, the deleted flag and the type
discriminator, then a stable sort on the numeric timestamp).  Python float
amounts in this program hold short decimal values; they are modelled as
exact decimals (an integer mantissa with a power-of-ten scale), which
agrees with Python arithmetic, round() and str() on every value reachable
in this development.  Fallible code (tuple unpacking, date construction)
returns Option.
-/

namespace MMExport

/-! ## Character-list helpers for the Python string primitives -/

/-- Python str.split(sep) for a one-character separator, on a character
list.  Always returns a nonempty list of components; adjacent separators
yield empty components, like Python. -/
def splitChar (sep : Char) : List Char → List (List Char)
  | [] => [[]]
  | c :: cs =>
    match splitChar sep cs with
    | [] => [[]]
    | h :: t => if c = sep then [] :: h :: t else (c :: h) :: t

/-- Python str.split(sep) on String, one-character separator. -/
def pySplit (sep : Char) (s : String) : List String :=
  (splitChar sep s.data).map (fun l => ⟨l⟩)

/-- Python str.strip() on a character list (ASCII whitespace; the claims
never exercise the extra Unicode space characters Python also strips). -/
def stripList (l : List Char) : List Char :=
  ((l.dropWhile Char.isWhitespace).reverse.dropWhile Char.isWhitespace).reverse

/-- Python str.strip() on String. -/
def pyStrip (s : String) : String := ⟨stripList s.data⟩

/-- Python str.lower() (the month table keys are ASCII, where Char.toLower
agrees with Python). -/
def pyLower (s : String) : String := ⟨s.data.map Char.toLower⟩

/-- Decimal value of a digit list (most significant first). -/
def digitsToNat (l : List Char) : Nat :=
  l.foldl (fun a c => a * 10 + (c.toNat - 48)) 0

/-- Python int(str): strip whitespace, optional sign, then decimal digits;
anything else raises, modelled as none. -/
def pyInt (s : String) : Option Int :=
  match (pyStrip s).data with
  | [] => none
  | c :: cs =>
    if c = '-' then
      if cs ≠ [] ∧ cs.all Char.isDigit then some (-(digitsToNat cs : Int)) else none
    else if c = '+' then
      if cs ≠ [] ∧ cs.all Char.isDigit then some ((digitsToNat cs : Int)) else none
    else
      if (c :: cs).all Char.isDigit then some ((digitsToNat (c :: cs) : Int)) else none

/-- First-match lookup in an association list with String keys, modelling a
Python dict built from distinct literal keys (dict.get). -/
def lookupTable {α : Type} (s : String) : List (String × α) → Option α
  | [] => none
  | (k, v) :: t => if s = k then some v else lookupTable s t

/-! ## Exact-decimal model of the Python float amounts -/

/-- A Python float holding the decimal value mantissa / 10 ^ scale. -/
structure PyFloat where
  mantissa : Int
  scale : Nat
deriving DecidableEq, Repr

/-- Float addition (exact on the decimal amounts this program handles). -/
def PyFloat.add (a b : PyFloat) : PyFloat :=
  let s := max a.scale b.scale
  ⟨a.mantissa * (10 : Int) ^ (s - a.scale) + b.mantissa * (10 : Int) ^ (s - b.scale), s⟩

/-- Rational value of a PyFloat. -/
def PyFloat.toRat (x : PyFloat) : ℚ := (x.mantissa : ℚ) / (10 : ℚ) ^ x.scale

/-- Integer division rounding half to even (Python round() on exact
decimal values), for a positive divisor. -/
def halfEvenDiv (m d : Int) : Int :=
  let q := m.ediv d
  let r := m.emod d
  if 2 * r < d then q else if d < 2 * r then q + 1
  else if q.emod 2 = 0 then q else q + 1

/-- Python round(x, 2) on a float holding an exact decimal. -/
def pyRound2 (x : PyFloat) : PyFloat :=
  if x.scale ≤ 2 then x
  else ⟨halfEvenDiv x.mantissa ((10 : Int) ^ (x.scale - 2)), 2⟩

/-- Drop trailing decimal zeros: the minimal-scale form str() prints. -/
def stripZeros : Int → Nat → Int × Nat
  | m, 0 => (m, 0)
  | m, s + 1 => if m.emod 10 = 0 then stripZeros (m.ediv 10) s else (m, s + 1)

/-- Decimal string of a nonnegative integer. -/
def natRepr (n : Nat) : String := Nat.repr n

/-- Decimal string of an integer (Python str(int)). -/
def intRepr (i : Int) : String :=
  if i < 0 then "-" ++ natRepr i.natAbs else natRepr i.natAbs

/-- Left-pad a string with zeros to the given length. -/
def padZeros (k : Nat) (s : String) : String :=
  ⟨List.replicate (k - s.length) '0'⟩ ++ s

/-- Python str(float) on a float holding an exact decimal: the shortest
round-tripping decimal, always with at least one fractional digit. -/
def pyStr (x : PyFloat) : String :=
  let p := stripZeros x.mantissa x.scale
  let sign := if p.1 < 0 then "-" else ""
  let a := p.1.natAbs
  if p.2 = 0 then sign ++ natRepr a ++ ".0"
  else sign ++ natRepr (a / 10 ^ p.2) ++ "." ++ padZeros p.2 (natRepr (a % 10 ^ p.2))

/-! ## Calendar -/

/-- Calendar date, as datetime.date. -/
structure Date where
  year : Nat
  month : Nat
  day : Nat
deriving DecidableEq, Repr

/-- Gregorian leap-year test, as calendar.isleap. -/
def isLeap (y : Nat) : Bool :=
  (y % 4 == 0 && y % 100 != 0) || (y % 400 == 0)

/-- Number of days of a month: calendar.monthrange(y, m)[1]. -/
def daysInMonth (y m : Nat) : Nat :=
  if m == 2 then (if isLeap y then 29 else 28)
  else if m == 4 || m == 6 || m == 9 || m == 11 then 30
  else 31

/-- Zero-padded two-digit field of strftime. -/
def pad2 (n : Nat) : String := if n < 10 then "0" ++ natRepr n else natRepr n

/-- str(datetime.date): ISO form YYYY-MM-DD, year padded to four digits. -/
def dateStr (d : Date) : String :=
  padZeros 4 (natRepr d.year) ++ "-" ++ pad2 d.month ++ "-" ++ pad2 d.day

/-! ## The month tables (MoneyManagerQuery.__monthStrToNum / __parseMonth) -/

/-- The fixed English and Spanish month-name dictionary of
__monthStrToNum. -/
def monthTable : List (String × Nat) :=
  [("jan", 1), ("january", 1), ("ene", 1), ("enero", 1),
   ("feb", 2), ("february", 2), ("febrero", 2),
   ("mar", 3), ("march", 3), ("marzo", 3),
   ("apr", 4), ("april", 4), ("abr", 4), ("abril", 4),
   ("may", 5), ("mayo", 5),
   ("jun", 6), ("june", 6), ("junio", 6),
   ("jul", 7), ("july", 7), ("julio", 7),
   ("aug", 8), ("august", 8), ("ago", 8), ("agosto", 8),
   ("sep", 9), ("september", 9), ("septiembre", 9),
   ("oct", 10), ("october", 10), ("octubre", 10),
   ("nov", 11), ("november", 11), ("noviembre", 11),
   ("dec", 12), ("december", 12), ("dic", 12), ("diciembre", 12)]

/-- __monthStrToNum: case-insensitive dictionary lookup, 0 when absent. -/
def monthStrToNum (monthStr : String) : Nat :=
  (lookupTable (pyLower monthStr) monthTable).getD 0

/-- __parseMonth: first a direct int() parse with 1..12 range check (an
out-of-range integer falls back to the current month number, passed here as
nowMonth); on parse failure the name table; 0 when both fail. -/
def parseMonth (nowMonth : Nat) (monthStr : String) : Nat :=
  let month : Nat :=
    match pyInt monthStr with
    | some i => if i < 1 ∨ 12 < i then nowMonth else i.toNat
    | none => 0
  if month = 0 then monthStrToNum monthStr else month

/-! ## Resolver state (the MoneyManagerQuery instance attributes) -/

/-- The mutable attributes of a MoneyManagerQuery instance that the date
resolution, query construction and report accumulation read and write.
The cached query statement is represented by its only variable parts, the
two rendered range dates; totalIsInt records whether totalAmount is still
the initial Python int 0 (str() prints ints and floats differently). -/
structure QueryState where
  startDate : Option Date
  endDate : Option Date
  queryStatement : Option (String × String)
  totalAmount : PyFloat
  totalIsInt : Bool
deriving DecidableEq, Repr

/-- The state right after __init__. -/
def initState : QueryState :=
  { startDate := none, endDate := none, queryStatement := none,
    totalAmount := ⟨0, 0⟩, totalIsInt := true }

/-- setStartDate. -/
def setStartDate (d : Option Date) (q : QueryState) : QueryState :=
  { q with startDate := d }

/-- setEndDate. -/
def setEndDate (d : Option Date) (q : QueryState) : QueryState :=
  { q with endDate := d }

/-- getStartDate: cached; when unset, the first day of the month preceding
now (December of the prior year when now is in January). -/
def getStartDate (now : Date) (q : QueryState) : Date × QueryState :=
  match q.startDate with
  | some d => (d, q)
  | none =>
    let d : Date :=
      if now.month = 1 then ⟨now.year - 1, 12, 1⟩
      else ⟨now.year, now.month - 1, 1⟩
    (d, { q with startDate := some d })

/-- getEndDate: cached; when unset, the last day of the month the (possibly
just defaulted) start date falls in. -/
def getEndDate (now : Date) (q : QueryState) : Date × QueryState :=
  match q.endDate with
  | some d => (d, q)
  | none =>
    let p := getStartDate now q
    let d : Date := ⟨p.1.year, p.1.month, daysInMonth p.1.year p.1.month⟩
    (d, { p.2 with endDate := some d })

/-- setMonth: resolve the token; a resolved month spans that full month of
the current year, an unresolved one clears both dates so the defaults
apply. -/
def setMonth (now : Date) (monthStr : String) (q : QueryState) : QueryState :=
  let month := parseMonth now.month monthStr
  if month ≠ 0 then
    let endDay := daysInMonth now.year month
    setEndDate (some ⟨now.year, month, endDay⟩)
      (setStartDate (some ⟨now.year, month, 1⟩) q)
  else
    setEndDate none (setStartDate none q)

/-- getQueryStatement: cached; when unset, renders the resolved start and
end dates into the (otherwise fixed) SQL text, represented here by that
date pair. -/
def getQueryStatement (now : Date) (q : QueryState) :
    (String × String) × QueryState :=
  match q.queryStatement with
  | some st => (st, q)
  | none =>
    let p1 := getStartDate now q
    let p2 := getEndDate now p1.2
    let st := (dateStr p1.1, dateStr p2.1)
    (st, { p2.2 with queryStatement := some st })

/-! ## The store and the query semantics -/

/-- One joined row of the store, as the SELECT returns it: the cocoa
timestamp, the transaction date string, the joined category name, the
comment, the amount and the joined payment-asset name, plus the two filter
columns. -/
structure RawRecord where
  zdate : Int
  ztxdatestr : String
  categoryName : String
  zcontent : String
  zamount : PyFloat
  assetName : String
  zisdel : Int
  zdo_type : Int
deriving DecidableEq, Repr

/-- Lexicographic order on character lists by code point: sqlite text
comparison under the default BINARY collation (memcmp over UTF-8, which
orders by code point). -/
def leChars : List Char → List Char → Bool
  | [], _ => true
  | _ :: _, [] => false
  | a :: as, b :: bs =>
    if a.toNat < b.toNat then true
    else if b.toNat < a.toNat then false
    else leChars as bs

/-- sqlite string comparison on String. -/
def strLe (a b : String) : Bool := leChars a.data b.data

/-- The WHERE clause: date string between the rendered range bounds
(sqlite BINARY collation), not deleted, expense type. -/
def matchesQuery (s e : String) (r : RawRecord) : Bool :=
  strLe s r.ztxdatestr && strLe r.ztxdatestr e
    && (r.zisdel == 0) && (r.zdo_type == 1)

/-- Stable insertion of a row into a list sorted by zdate. -/
def insertRec (r : RawRecord) : List RawRecord → List RawRecord
  | [] => [r]
  | x :: xs => if r.zdate ≤ x.zdate then r :: x :: xs else x :: insertRec r xs

/-- ORDER BY z.zdate ASC, as a stable sort. -/
def sortByZdate : List RawRecord → List RawRecord
  | [] => []
  | x :: xs => insertRec x (sortByZdate xs)

/-- Execution of the constructed SELECT over an in-memory store. -/
def runQuery (store : List RawRecord) (s e : String) : List RawRecord :=
  sortByZdate (store.filter (matchesQuery s e))

/-! ## The per-record transforms -/

/-- processDate: split on the dashes (exactly three components), build a
datetime.date (whose constructor validates the ranges) and print it back
as DD/MM/YYYY; a malformed string raises, modelled as none. -/
def processDate (strDate : String) : Option String :=
  match pySplit '-' strDate with
  | [y, m, d] =>
    (pyInt y).bind fun yi =>
    (pyInt m).bind fun mi =>
    (pyInt d).bind fun di =>
    if 1 ≤ yi ∧ yi ≤ 9999 ∧ 1 ≤ mi ∧ mi ≤ 12 ∧ 1 ≤ di
        ∧ di ≤ (daysInMonth yi.toNat mi.toNat : Int) then
      some (pad2 di.toNat ++ "/" ++ pad2 mi.toNat ++ "/" ++ natRepr yi.toNat)
    else none
  | _ => none

/-- processCategory: when a slash occurs, component [1] of the split (the
piece between the first and second slash); otherwise unchanged.  A
slash-free string splits into one component, which the fallthrough arm
returns unchanged, so the match is exactly the find() test of the source. -/
def processCategory (category : String) : String :=
  match pySplit '/' category with
  | _ :: second :: _ => second
  | _ => category

/-- processAmount on the str() rendering of the amount: keep the first two
dot-separated components, unpack them (raising, i.e. none, when there is no
dot), pad a short cents part with one trailing zero, join with a comma. -/
def processAmount (amountStr : String) : Option String :=
  match (pySplit '.' amountStr).take 2 with
  | [amtInteger, amtCents] =>
    let cents := if amtCents.length < 2 then amtCents ++ "0" else amtCents
    some (amtInteger ++ "," ++ cents)
  | _ => none

/-- processPaymentMethod: strip, then the literal if-chain of the source;
every unmatched name gives the string INVALID. -/
def processPaymentMethod (pm : String) : String :=
  let pm := pyStrip pm
  if pm = "Tickets" then "Ti"
  else if pm = "Transferencia" then "T"
  else if pm = "Efectivo" then "E"
  else if pm = "T. Débito" then "TD"
  else if pm = "T. Crédito" then "TC"
  else if pm = "PayPal" then "P"
  else "INVALID"

/-- processName: pass-through. -/
def processName (trName : String) : String := trName

/-! ## getResult and toString -/

/-- One formatted row, the five fields the source appends in order. -/
structure Row where
  date : String
  category : String
  name : String
  amount : String
  payMethod : String
deriving DecidableEq, Repr

/-- The transform pipeline of one loop iteration of getResult (date first,
then category, name, amount, payment method; date or amount may raise). -/
def processRow (r : RawRecord) : Option Row :=
  (processDate r.ztxdatestr).bind fun d =>
  (processAmount (pyStr r.zamount)).bind fun a =>
  some ⟨d, processCategory r.categoryName, processName r.zcontent, a,
        processPaymentMethod r.assetName⟩

/-- The getResult loop: formats each row and accumulates the raw amount
into the running total (which becomes a float on the first addition); a
raising row aborts with the totals of the rows already processed. -/
def processRows : List RawRecord → PyFloat × Bool →
    Option (List Row) × (PyFloat × Bool)
  | [], acc => (some [], acc)
  | r :: rs, acc =>
    match processRow r with
    | none => (none, acc)
    | some row =>
      let rec2 := processRows rs (acc.1.add r.zamount, false)
      (rec2.1.map (fun l => row :: l), rec2.2)

/-- getResult: build (or reuse) the statement, run the query, format the
rows and accumulate the total into the instance state. -/
def getResult (store : List RawRecord) (now : Date) (q : QueryState) :
    Option (List Row) × QueryState :=
  let stq := getQueryStatement now q
  let rows := runQuery store stq.1.1 stq.1.2
  let pr := processRows rows (stq.2.totalAmount, stq.2.totalIsInt)
  (pr.1, { stq.2 with totalAmount := pr.2.1, totalIsInt := pr.2.2 })

/-- One report line: the first four fields each followed by a semicolon,
the fifth followed by a newline. -/
def renderRow (r : Row) : String :=
  r.date ++ ";" ++ r.category ++ ";" ++ r.name ++ ";" ++ r.amount ++ ";"
    ++ r.payMethod ++ "\n"

/-- str(round(totalAmount, 2)): the int path when no amount was ever
accumulated, the float path otherwise. -/
def totalRepr (isInt : Bool) (t : PyFloat) : String :=
  if isInt then intRepr (pyRound2 t).mantissa else pyStr (pyRound2 t)

/-- toString: the fixed header, one rendered line per formatted row, then
the Total line. -/
def toString (store : List RawRecord) (now : Date) (q : QueryState) :
    Option String × QueryState :=
  let p := getResult store now q
  match p.1 with
  | none => (none, p.2)
  | some rows =>
    let body := rows.foldl (fun acc row => acc ++ renderRow row)
      "fecha;categoría;comentario;importe;forma pago\n"
    (some (body ++ "Total: " ++ totalRepr p.2.totalIsInt p.2.totalAmount), p.2)

/-! ## Formulations taken from the specification text, for comparison -/

/-- Spec formulation: the first day of the calendar month preceding now
(December of the prior year when the current month is January). -/
def prevMonthStart (now : Date) : Date :=
  if now.month = 1 then ⟨now.year - 1, 12, 1⟩ else ⟨now.year, now.month - 1, 1⟩

/-- Spec formulation: the last calendar day of the month preceding now,
from the day count of that month. -/
def prevMonthEnd (now : Date) : Date :=
  ⟨(prevMonthStart now).year, (prevMonthStart now).month,
   daysInMonth (prevMonthStart now).year (prevMonthStart now).month⟩

/-- Spec formulation: the fixed payment-method table, in the order the
spec lists it. -/
def paymentTableSpec : List (String × String) :=
  [("Efectivo", "E"), ("Transferencia", "T"), ("T. Crédito", "TC"),
   ("T. Débito", "TD"), ("Tickets", "Ti"), ("PayPal", "P")]

/-! ## Concrete stores for the end-to-end scenarios -/

/-- The store of the end-to-end scenario: one non-deleted expense dated
2024-03-15, category Ocio/Cine, amount 8.5, method PayPal, comment
Movie. -/
def store1 : List RawRecord :=
  [⟨700000000, "2024-03-15", "Ocio/Cine", "Movie", ⟨85, 1⟩, "PayPal", 0, 1⟩]

/-- A store whose only record falls outside April 2025: zero matches for
that range. -/
def store2 : List RawRecord :=
  [⟨700000000, "2025-06-10", "Ocio/Cine", "Movie", ⟨85, 1⟩, "PayPal", 0, 1⟩]

/-! ## Lemmas about the split primitive -/

theorem splitChar_ne_nil (sep : Char) (l : List Char) : splitChar sep l ≠ [] := by
  cases l with
  | nil => simp [splitChar]
  | cons c cs =>
    unfold splitChar
    cases h : splitChar sep cs with
    | nil => simp
    | cons a t =>
      dsimp only
      split <;> simp

theorem splitChar_of_not_mem (sep : Char) (l : List Char) (h : sep ∉ l) :
    splitChar sep l = [l] := by
  induction l with
  | nil => rfl
  | cons c cs ih =>
    have hc : ¬c = sep := fun e => h (e ▸ List.mem_cons_self c cs)
    have hcs : sep ∉ cs := fun m => h (List.mem_cons_of_mem _ m)
    unfold splitChar
    rw [ih hcs]
    simp [hc]

theorem splitChar_append_sep (sep : Char) (l1 l2 : List Char) (h : sep ∉ l1) :
    splitChar sep (l1 ++ sep :: l2) = l1 :: splitChar sep l2 := by
  induction l1 with
  | nil =>
    simp only [List.nil_append]
    conv_lhs => unfold splitChar
    cases hs : splitChar sep l2 with
    | nil => exact absurd hs (splitChar_ne_nil sep l2)
    | cons a t => simp [hs]
  | cons c cs ih =>
    have hc : ¬c = sep := fun e => h (e ▸ List.mem_cons_self c cs)
    have hcs : sep ∉ cs := fun m => h (List.mem_cons_of_mem _ m)
    simp only [List.cons_append]
    conv_lhs => unfold splitChar
    rw [ih hcs]
    simp [hc]

theorem two_le_splitChar_length (sep : Char) (l : List Char) (h : sep ∈ l) :
    2 ≤ (splitChar sep l).length := by
  induction l with
  | nil => cases h
  | cons c cs ih =>
    unfold splitChar
    cases hs : splitChar sep cs with
    | nil => exact absurd hs (splitChar_ne_nil sep cs)
    | cons a t =>
      by_cases hc : c = sep
      · simp [hc]
      · have hm : sep ∈ cs := by
          rcases List.mem_cons.mp h with h1 | h1
          · exact absurd h1.symm hc
          · exact h1
        have h2 := ih hm
        rw [hs] at h2
        simp only [List.length_cons] at h2 ⊢
        simp [hc]
        omega

/-! ## C1: the amount transform -/

/-- C1 counterexample: on 12.345 the transform keeps the whole fractional
component, producing 12,345 and not the 12,34 the claim states. -/
theorem C1_amount_counterexample :
    processAmount "12.345" = some "12,345" ∧ processAmount "12.345" ≠ some "12,34" :=
  ⟨rfl, by decide⟩

/-- C1 (amended): the amount transform splits the string form of the
amount on the decimal point and considers only the first two dot-separated
components; a fractional component shorter than two characters gets a
single trailing zero; the components are joined with a comma.  Thus 12.3
gives 12,30 and 12.34 gives 12,34, but 12.345 gives 12,345 (the third
fractional digit is kept, not dropped). -/
theorem C1_amount_amended :
    processAmount "12.3" = some "12,30" ∧
    processAmount "12.34" = some "12,34" ∧
    processAmount "12.345" = some "12,345" ∧
    ∀ (s i f : String) (rest : List String), pySplit '.' s = i :: f :: rest →
      processAmount s = some (i ++ "," ++ (if f.length < 2 then f ++ "0" else f)) := by
  refine ⟨rfl, rfl, rfl, ?_⟩
  intro s i f rest h
  unfold processAmount
  rw [h]
  rfl

/-- C1 witness: the general component characterization applied to a
concrete two-dot input. -/
theorem C1_amount_amended_witness : processAmount "7.1.9" = some "7,10" :=
  C1_amount_amended.2.2.2 "7.1.9" "7" "1" ["9"] rfl

/-! ## C2: the category transform -/

/-- C2 counterexample: with two separators the transform keeps only the
component between the first and second slash, not everything after the
first slash. -/
theorem C2_category_counterexample :
    processCategory "Food/Fruit/Apples" = "Fruit" ∧
    processCategory "Food/Fruit/Apples" ≠ "Fruit/Apples" :=
  ⟨rfl, by decide⟩

/-- C2 (amended): a category without a slash passes through unchanged; a
category of the form a/b with slash-free a and b maps to b (everything
after the single slash); with a second slash, a/b/rest maps to b alone,
the component between the first two slashes, dropping everything from the
second slash on. -/
theorem C2_category_amended :
    (∀ c : String, '/' ∉ c.data → processCategory c = c) ∧
    (∀ a b : String, '/' ∉ a.data → '/' ∉ b.data →
      processCategory (a ++ "/" ++ b) = b) ∧
    (∀ a b c : String, '/' ∉ a.data → '/' ∉ b.data →
      processCategory (a ++ "/" ++ b ++ "/" ++ c) = b) := by
  refine ⟨?_, ?_, ?_⟩
  · intro c h
    unfold processCategory pySplit
    rw [splitChar_of_not_mem '/' c.data h]
    rfl
  · intro a b ha hb
    unfold processCategory pySplit
    have hd : (a ++ "/" ++ b).data = a.data ++ '/' :: b.data := by
      simp [String.data_append]
    rw [hd, splitChar_append_sep '/' a.data b.data ha,
      splitChar_of_not_mem '/' b.data hb]
    rfl
  · intro a b c ha hb
    unfold processCategory pySplit
    have hd : (a ++ "/" ++ b ++ "/" ++ c).data
        = a.data ++ '/' :: (b.data ++ '/' :: c.data) := by
      simp [String.data_append]
    rw [hd, splitChar_append_sep '/' a.data _ ha,
      splitChar_append_sep '/' b.data _ hb]
    rfl

/-- C2 witness: the amended characterization applied to the three spec
examples and a two-separator category. -/
theorem C2_category_amended_witness :
    processCategory "Food" = "Food" ∧
    processCategory ("Food" ++ "/" ++ "Groceries") = "Groceries" ∧
    processCategory ("Ocio" ++ "/" ++ "Cine" ++ "/" ++ "Extra") = "Cine" :=
  ⟨C2_category_amended.1 "Food" (by decide),
   C2_category_amended.2.1 "Food" "Groceries" (by decide) (by decide),
   C2_category_amended.2.2 "Ocio" "Cine" "Extra" (by decide) (by decide)⟩

/-! ## C10: the amount transform requires a decimal point -/

/-- C10: the amount transform is defined only when the string form of the
amount contains a decimal point: on a dot-free rendering such as that of
the integer 8 the two-way unpack of the split fails (an exception,
modelled as none), and when a dot is present it returns a formatted
string. -/
theorem C10_amount_requires_dot :
    processAmount "8" = none ∧
    (∀ s : String, '.' ∉ s.data → processAmount s = none) ∧
    (∀ s : String, '.' ∈ s.data → ∃ out : String, processAmount s = some out) := by
  refine ⟨rfl, ?_, ?_⟩
  · intro s h
    unfold processAmount pySplit
    rw [splitChar_of_not_mem '.' s.data h]
    rfl
  · intro s h
    have h2 := two_le_splitChar_length '.' s.data h
    unfold processAmount pySplit
    cases hs : splitChar '.' s.data with
    | nil => exact absurd hs (splitChar_ne_nil '.' s.data)
    | cons a t =>
      cases t with
      | nil => rw [hs] at h2; simp at h2
      | cons b t2 => exact ⟨_, rfl⟩

/-- C10 witness: the dot-free case applied at the rendering of the
integer 12, and the dotted case at 3.4. -/
theorem C10_amount_requires_dot_witness :
    processAmount "12" = none ∧ ∃ out : String, processAmount "3.4" = some out :=
  ⟨C10_amount_requires_dot.2.1 "12" (by decide),
   C10_amount_requires_dot.2.2 "3.4" (by decide)⟩

/-! ## Lemmas about the cached resolver state -/

theorem getStartDate_some (now : Date) (q : QueryState) (s : Date)
    (h : q.startDate = some s) : getStartDate now q = (s, q) := by
  unfold getStartDate
  rw [h]

theorem getEndDate_some (now : Date) (q : QueryState) (e : Date)
    (h : q.endDate = some e) : getEndDate now q = (e, q) := by
  unfold getEndDate
  rw [h]

theorem getQueryStatement_cached (now : Date) (q : QueryState)
    (st : String × String) (h : q.queryStatement = some st) :
    getQueryStatement now q = (st, q) := by
  unfold getQueryStatement
  rw [h]

theorem getQueryStatement_now_indep (now now2 : Date) (q : QueryState)
    (s e : Date) (hs : q.startDate = some s) (he : q.endDate = some e) :
    getQueryStatement now q = getQueryStatement now2 q := by
  cases hq : q.queryStatement with
  | some st =>
    rw [getQueryStatement_cached now q st hq, getQueryStatement_cached now2 q st hq]
  | none =>
    simp only [getQueryStatement, hq, getStartDate_some now q s hs,
      getStartDate_some now2 q s hs, getEndDate_some now q e he,
      getEndDate_some now2 q e he]

theorem getResult_now_indep (store : List RawRecord) (now now2 : Date)
    (q : QueryState) (s e : Date)
    (hs : q.startDate = some s) (he : q.endDate = some e) :
    getResult store now q = getResult store now2 q := by
  unfold getResult
  rw [getQueryStatement_now_indep now now2 q s e hs he]

theorem toString_now_indep (store : List RawRecord) (now now2 : Date)
    (q : QueryState) (s e : Date)
    (hs : q.startDate = some s) (he : q.endDate = some e) :
    toString store now q = toString store now2 q := by
  unfold toString
  rw [getResult_now_indep store now now2 q s e hs he]

/-! ## C5: the default previous-month range -/

/-- C5: with no explicit start, end or month (the state right after
construction), the resolved start date is the first day of the calendar
month preceding now (December of the prior year in January) and the
resolved end date is the last day of that same month by its day count,
including the 29-day February of a leap year. -/
theorem C5_default_range :
    (∀ now : Date, (getStartDate now initState).1 = prevMonthStart now) ∧
    (∀ now : Date, (getEndDate now initState).1 = prevMonthEnd now) ∧
    (getEndDate ⟨2024, 3, 10⟩ initState).1 = ⟨2024, 2, 29⟩ ∧
    (getEndDate ⟨2023, 3, 10⟩ initState).1 = ⟨2023, 2, 28⟩ ∧
    (getStartDate ⟨2026, 1, 2⟩ initState).1 = ⟨2025, 12, 1⟩ := by
  refine ⟨fun now => rfl, fun now => rfl, rfl, rfl, rfl⟩

/-! ## C3: month-token resolution -/

/-- C3: the month resolver first tries an integer parse with a 1-12 range
check, where the out-of-range token 13 falls back to the current month
number; otherwise a case-insensitive name lookup resolves both Enero and
jan to 1; and when both fail, as for foo, the month is the sentinel 0 and
setMonth clears both dates, so the resolver produces the default
previous-month range instead of raising. -/
theorem C3_month_resolution (now : Date) (q : QueryState)
    (h1 : 1 ≤ now.month) (h2 : now.month ≤ 12) :
    parseMonth now.month "13" = now.month ∧
    parseMonth now.month "Enero" = 1 ∧
    parseMonth now.month "jan" = 1 ∧
    parseMonth now.month "foo" = 0 ∧
    setMonth now "foo" q = { q with startDate := none, endDate := none } ∧
    (getStartDate now (setMonth now "foo" q)).1 = prevMonthStart now ∧
    (getEndDate now (setMonth now "foo" q)).1 = prevMonthEnd now := by
  refine ⟨?_, rfl, rfl, rfl, rfl, rfl, rfl⟩
  unfold parseMonth
  have e13 : pyInt "13" = some 13 := rfl
  rw [e13]
  have hr : ((13 : Int) < 1 ∨ 12 < (13 : Int)) := by norm_num
  simp only [if_pos hr]
  rw [if_neg (by omega)]

/-- C3 witness: the resolution facts at a concrete October 2025 clock. -/
theorem C3_month_resolution_witness :
    parseMonth 10 "13" = 10 ∧
    parseMonth 10 "Enero" = 1 ∧
    parseMonth 10 "jan" = 1 ∧
    parseMonth 10 "foo" = 0 ∧
    setMonth ⟨2025, 10, 12⟩ "foo" initState
      = { initState with startDate := none, endDate := none } ∧
    (getStartDate ⟨2025, 10, 12⟩ (setMonth ⟨2025, 10, 12⟩ "foo" initState)).1
      = ⟨2025, 9, 1⟩ ∧
    (getEndDate ⟨2025, 10, 12⟩ (setMonth ⟨2025, 10, 12⟩ "foo" initState)).1
      = ⟨2025, 9, 30⟩ :=
  C3_month_resolution ⟨2025, 10, 12⟩ initState (by decide) (by decide)

/-! ## C6: setting start does not recompute a cached end -/

/-- C6: once the end date is cached on the instance, re-assigning the
start date and reading the end date again returns the cached end
unchanged; setStartDate writes only the start field, leaving end, the
cached statement and the total untouched. -/
theorem C6_cached_end (now : Date) (q : QueryState) (e : Date)
    (s : Option Date) (h : q.endDate = some e) :
    (getEndDate now (setStartDate s q)).1 = e ∧
    (getEndDate now (setStartDate s q)).2 = setStartDate s q ∧
    (setStartDate s q).startDate = s ∧
    (setStartDate s q).endDate = q.endDate ∧
    (setStartDate s q).queryStatement = q.queryStatement ∧
    (setStartDate s q).totalAmount = q.totalAmount := by
  have h2 : (setStartDate s q).endDate = some e := h
  rw [getEndDate_some now (setStartDate s q) e h2]
  exact ⟨rfl, rfl, rfl, h.symm ▸ h2, rfl, rfl⟩

/-- C6 witness: after computing the December 2023 default end, setting a
new start date leaves the cached end at 2023-12-31. -/
theorem C6_cached_end_witness :
    (getEndDate ⟨2024, 1, 15⟩ (setStartDate (some ⟨2024, 5, 1⟩)
      (getEndDate ⟨2024, 1, 15⟩ initState).2)).1 = ⟨2023, 12, 31⟩ :=
  (C6_cached_end ⟨2024, 1, 15⟩ ((getEndDate ⟨2024, 1, 15⟩ initState).2)
    ⟨2023, 12, 31⟩ (some ⟨2024, 5, 1⟩) (by decide)).1

/-! ## C8: the payment-method transform -/

/-- C8: the payment-method transform trims the name and performs an
exact-match lookup in the fixed six-entry table, mapping every unmatched
name to the literal INVALID; being a total function it never raises. -/
theorem C8_payment_method (pm : String) :
    processPaymentMethod pm
      = (lookupTable (pyStrip pm) paymentTableSpec).getD "INVALID" := by
  unfold processPaymentMethod paymentTableSpec
  simp only [lookupTable]
  split_ifs <;> first | rfl | simp_all


/-! ## Lemmas about the accumulation loop -/

theorem PyFloat.add_toRat (a b : PyFloat) :
    (a.add b).toRat = a.toRat + b.toRat := by
  unfold PyFloat.add PyFloat.toRat
  dsimp only
  have ha : (10 : ℚ) ^ (max a.scale b.scale - a.scale) * 10 ^ a.scale
      = 10 ^ max a.scale b.scale := by
    rw [← pow_add, Nat.sub_add_cancel (Nat.le_max_left _ _)]
  have hb : (10 : ℚ) ^ (max a.scale b.scale - b.scale) * 10 ^ b.scale
      = 10 ^ max a.scale b.scale := by
    rw [← pow_add, Nat.sub_add_cancel (Nat.le_max_right _ _)]
  push_cast
  rw [add_div]
  congr 1
  · rw [← ha, mul_comm ((a.mantissa : ℚ)) _,
      mul_div_mul_left _ _ (pow_ne_zero _ (by norm_num : (10 : ℚ) ≠ 0))]
  · rw [← hb, mul_comm ((b.mantissa : ℚ)) _,
      mul_div_mul_left _ _ (pow_ne_zero _ (by norm_num : (10 : ℚ) ≠ 0))]

theorem processRows_fst (rows : List RawRecord) (acc acc2 : PyFloat × Bool) :
    (processRows rows acc).1 = (processRows rows acc2).1 := by
  induction rows generalizing acc acc2 with
  | nil => rfl
  | cons r rs ih =>
    unfold processRows
    cases processRow r with
    | none => rfl
    | some row =>
      dsimp only
      rw [ih (acc.1.add r.zamount, false) (acc2.1.add r.zamount, false)]

theorem processRows_toRat (rows : List RawRecord) (t : PyFloat) (i : Bool) :
    ((processRows rows (t, i)).2.1).toRat
      = t.toRat + ((processRows rows (⟨0, 0⟩, true)).2.1).toRat := by
  induction rows generalizing t i with
  | nil =>
    simp [processRows, PyFloat.toRat]
  | cons r rs ih =>
    unfold processRows
    cases processRow r with
    | none => simp [PyFloat.toRat]
    | some row =>
      dsimp only
      rw [ih (t.add r.zamount) false, ih (PyFloat.add ⟨0, 0⟩ r.zamount) false,
        PyFloat.add_toRat, PyFloat.add_toRat]
      have h00 : (PyFloat.mk 0 0).toRat = 0 := by simp [PyFloat.toRat]
      rw [h00]
      ring

theorem getQueryStatement_post (now : Date) (q : QueryState) :
    ((getQueryStatement now q).2).queryStatement
      = some (getQueryStatement now q).1 := by
  unfold getQueryStatement
  cases hq : q.queryStatement with
  | some st => exact hq
  | none => rfl

theorem getStartDate_totals (now : Date) (q : QueryState) :
    ((getStartDate now q).2).totalAmount = q.totalAmount ∧
    ((getStartDate now q).2).totalIsInt = q.totalIsInt := by
  unfold getStartDate
  cases hq : q.startDate <;> exact ⟨rfl, rfl⟩

theorem getEndDate_totals (now : Date) (q : QueryState) :
    ((getEndDate now q).2).totalAmount = q.totalAmount ∧
    ((getEndDate now q).2).totalIsInt = q.totalIsInt := by
  unfold getEndDate
  cases hq : q.endDate with
  | some e => exact ⟨rfl, rfl⟩
  | none =>
    dsimp only
    exact getStartDate_totals now q

theorem getQueryStatement_totals (now : Date) (q : QueryState) :
    ((getQueryStatement now q).2).totalAmount = q.totalAmount ∧
    ((getQueryStatement now q).2).totalIsInt = q.totalIsInt := by
  unfold getQueryStatement
  cases hq : q.queryStatement with
  | some st => exact ⟨rfl, rfl⟩
  | none =>
    dsimp only
    have h1 := getEndDate_totals now (getStartDate now q).2
    have h2 := getStartDate_totals now q
    exact ⟨h1.1.trans h2.1, h1.2.trans h2.2⟩

theorem rerun_aux (store : List RawRecord) (now : Date) (q1 : QueryState)
    (st : String × String) (h : q1.queryStatement = some st) :
    (getResult store now q1).1
      = (processRows (runQuery store st.1 st.2) (q1.totalAmount, q1.totalIsInt)).1 ∧
    ((getResult store now q1).2).totalAmount
      = (processRows (runQuery store st.1 st.2) (q1.totalAmount, q1.totalIsInt)).2.1 := by
  unfold getResult
  rw [getQueryStatement_cached now q1 st h]
  exact ⟨rfl, rfl⟩

/-! ## C7: running the same query twice -/

/-- C7 counterexample: invoking toString a second time on the same query
instance over the unmodified one-record store re-accumulates the running
total, so the second report ends in Total: 17.0 instead of Total: 8.5 and
the two reports are not byte-identical. -/
theorem C7_rerun_counterexample :
    (toString store1 ⟨2024, 10, 12⟩ (setMonth ⟨2024, 10, 12⟩ "March" initState)).1
      = some "fecha;categoría;comentario;importe;forma pago\n15/03/2024;Cine;Movie;8,50;P\nTotal: 8.5" ∧
    (toString store1 ⟨2024, 10, 12⟩
        (toString store1 ⟨2024, 10, 12⟩ (setMonth ⟨2024, 10, 12⟩ "March" initState)).2).1
      = some "fecha;categoría;comentario;importe;forma pago\n15/03/2024;Cine;Movie;8,50;P\nTotal: 17.0" ∧
    (toString store1 ⟨2024, 10, 12⟩ (setMonth ⟨2024, 10, 12⟩ "March" initState)).1
      ≠ (toString store1 ⟨2024, 10, 12⟩
          (toString store1 ⟨2024, 10, 12⟩ (setMonth ⟨2024, 10, 12⟩ "March" initState)).2).1 :=
  ⟨rfl, rfl, by decide⟩

/-- C7 (amended): the pipeline is deterministic, so a second run over the
same unmodified store returns exactly the same formatted transaction rows;
but on the same instance the running total accumulates again by the same
delta (the statement and date caches are reused, the total is not reset),
so the trailing Total line, and hence the report text, matches the first
report only when that delta renders identically; with the one-record
store the total doubles and the reports differ. -/
theorem C7_rerun_amended (store : List RawRecord) (now : Date) (q : QueryState) :
    (getResult store now (getResult store now q).2).1 = (getResult store now q).1 ∧
    ((getResult store now (getResult store now q).2).2).totalAmount.toRat
        - ((getResult store now q).2).totalAmount.toRat
      = ((getResult store now q).2).totalAmount.toRat - q.totalAmount.toRat := by
  have hq1st : ((getResult store now q).2).queryStatement
      = some ((getQueryStatement now q).1) := getQueryStatement_post now q
  have aux := rerun_aux store now ((getResult store now q).2)
    ((getQueryStatement now q).1) hq1st
  have hres1 : (getResult store now q).1
      = (processRows (runQuery store ((getQueryStatement now q).1).1
          ((getQueryStatement now q).1).2)
          (((getQueryStatement now q).2).totalAmount,
           ((getQueryStatement now q).2).totalIsInt)).1 := rfl
  have htA1 : ((getResult store now q).2).totalAmount
      = (processRows (runQuery store ((getQueryStatement now q).1).1
          ((getQueryStatement now q).1).2)
          (((getQueryStatement now q).2).totalAmount,
           ((getQueryStatement now q).2).totalIsInt)).2.1 := rfl
  constructor
  · rw [aux.1, hres1]
    exact processRows_fst _ _ _
  · rw [aux.2,
      processRows_toRat (runQuery store ((getQueryStatement now q).1).1
          ((getQueryStatement now q).1).2)
        (((getResult store now q).2).totalAmount)
        (((getResult store now q).2).totalIsInt),
      htA1,
      processRows_toRat (runQuery store ((getQueryStatement now q).1).1
          ((getQueryStatement now q).1).2)
        (((getQueryStatement now q).2).totalAmount)
        (((getQueryStatement now q).2).totalIsInt),
      (getQueryStatement_totals now q).1]
    ring

/-! ## C4: the end-to-end scenario -/

/-- C4: over the store holding one non-deleted expense dated 2024-03-15
with category Ocio/Cine, amount 8.5, method PayPal and comment Movie, a
query for month March run with any clock in year 2024 produces exactly the
header line, the line 15/03/2024;Cine;Movie;8,50;P and the line
Total: 8.5. -/
theorem C4_end_to_end (now : Date) (h : now.year = 2024) :
    (toString store1 now (setMonth now "March" initState)).1
      = some "fecha;categoría;comentario;importe;forma pago\n15/03/2024;Cine;Movie;8,50;P\nTotal: 8.5" := by
  rcases now with ⟨y, mo, d⟩
  dsimp only at h
  subst h
  have h1 : setMonth ⟨2024, mo, d⟩ "March" initState
      = ⟨some ⟨2024, 3, 1⟩, some ⟨2024, 3, 31⟩, none, ⟨0, 0⟩, true⟩ := rfl
  rw [h1, toString_now_indep store1 ⟨2024, mo, d⟩ ⟨2024, 1, 1⟩
    ⟨some ⟨2024, 3, 1⟩, some ⟨2024, 3, 31⟩, none, ⟨0, 0⟩, true⟩
    ⟨2024, 3, 1⟩ ⟨2024, 3, 31⟩ rfl rfl]
  decide

/-- C4 witness: the scenario at the concrete clock 2024-06-01. -/
theorem C4_end_to_end_witness :
    (toString store1 ⟨2024, 6, 1⟩ (setMonth ⟨2024, 6, 1⟩ "March" initState)).1
      = some "fecha;categoría;comentario;importe;forma pago\n15/03/2024;Cine;Movie;8,50;P\nTotal: 8.5" :=
  C4_end_to_end ⟨2024, 6, 1⟩ rfl

/-! ## C9: zero matching transactions -/

/-- C9: when the resolved range matches no transaction, the produced
report is exactly the fixed header line followed by Total: 0, and the run
succeeds (the report is produced, not an exception). -/
theorem C9_empty_report (store : List RawRecord) (now : Date) (q : QueryState)
    (ht : q.totalAmount = ⟨0, 0⟩) (hi : q.totalIsInt = true)
    (hempty : runQuery store ((getQueryStatement now q).1).1
      ((getQueryStatement now q).1).2 = []) :
    (toString store now q).1
      = some "fecha;categoría;comentario;importe;forma pago\nTotal: 0" := by
  simp only [toString, getResult, hempty, processRows, List.foldl]
  rw [(getQueryStatement_totals now q).1, (getQueryStatement_totals now q).2, ht, hi]
  decide

/-- C9 witness: an April 2025 query over a store whose only record is in
June 2025. -/
theorem C9_empty_report_witness :
    (toString store2 ⟨2025, 5, 1⟩ (setMonth ⟨2025, 5, 1⟩ "4" initState)).1
      = some "fecha;categoría;comentario;importe;forma pago\nTotal: 0" :=
  C9_empty_report store2 ⟨2025, 5, 1⟩ (setMonth ⟨2025, 5, 1⟩ "4" initState)
    rfl rfl (by decide)

end MMExport
